import Mathlib

/-!
Verification of the astrological computation engine of the `mystic` backend
(`src/backend/services/astrology_service.py` and
`src/backend/services/synastry_analysis_service.py`).

The Python floats are modelled by exact rationals (`ℚ`); Python's `int(...)`
truncation, `round(x, n)` (half-to-even) and `%` are given explicit rational
models below.  Dictionaries iterated in insertion order are modelled by lists
in the order written in the source.
-/

namespace Mystic

/-- Truncation toward zero, the behaviour of Python's `int(...)` on a number. -/
def ratTrunc (q : ℚ) : ℤ :=
  if q < 0 then -⌊-q⌋ else ⌊q⌋

/-- Round to the nearest integer, ties to even: the behaviour of Python's
`round` (modelled over exact rationals). -/
def roundHalfEven (q : ℚ) : ℤ :=
  let f : ℤ := ⌊q⌋
  let r : ℚ := q - f
  if r < 1/2 then f
  else if 1/2 < r then f + 1
  else if 2 ∣ f then f else f + 1

/-- Python's `round(x, 1)`. -/
def pyRound1 (q : ℚ) : ℚ := (roundHalfEven (q * 10) : ℚ) / 10

/-- Python's `round(x, 2)`. -/
def pyRound2 (q : ℚ) : ℚ := (roundHalfEven (q * 100) : ℚ) / 100

/-- Python's `x % 360` (the result is always in `[0, 360)`). -/
def mod360 (q : ℚ) : ℚ := q - 360 * ⌊q / 360⌋

/-- Python's `abs` on a number (definitionally an `if`, which evaluates by
`norm_num`; equal to `|q|` by `pyAbs_eq_abs`). -/
def pyAbs (q : ℚ) : ℚ := if q < 0 then -q else q

theorem pyAbs_eq_abs (q : ℚ) : pyAbs q = |q| := by
  unfold pyAbs
  rcases lt_or_le q 0 with h | h
  · simp [abs_of_neg h, h]
  · simp [abs_of_nonneg h, not_lt.mpr h]

/-!
Aspect engine.  Both `calculate_manual_synastry` and `calculate_transits`
compute `diff = abs(d1 - d2); if diff > 180: diff = 360 - diff` and then scan
a fixed table of `(aspect_name, exact_angle, tolerance)` candidates, emitting
the first candidate with `abs(diff - angle) <= tolerance` (the Python loop
`break`s at the first match).
-/

/-- Circular angular distance between two longitudes, exactly as written at
`astrology_service.py:751-755` and `:1271-1273`. -/
def angularDistance (d1 d2 : ℚ) : ℚ :=
  let diff := pyAbs (d1 - d2)
  if diff > 180 then 360 - diff else diff

/-- The `aspect_angles` dict of `calculate_manual_synastry`
(`astrology_service.py:740-746`), in insertion order. -/
def manualSynastryAspectAngles : List (String × ℚ × ℚ) :=
  [("conjunction", 0, 8), ("sextile", 60, 6), ("square", 90, 6),
   ("trine", 120, 8), ("opposition", 180, 8)]

/-- The `aspect_angles` dict of `calculate_transits`
(`astrology_service.py:1243-1249`), in insertion order. -/
def transitAspectAngles : List (String × ℚ × ℚ) :=
  [("conjunction", 0, 8), ("sextile", 60, 5), ("square", 90, 6),
   ("trine", 120, 7), ("opposition", 180, 8)]

/-- First-match scan of a candidate-aspect table: returns the name and orb
`abs(diff - angle)` of the first candidate whose tolerance admits `diff`
(the `for ... break` loops at `astrology_service.py:748-773` and
`:1275-1294`). -/
def findAspect : List (String × ℚ × ℚ) → ℚ → Option (String × ℚ)
  | [], _ => none
  | (name, angle, tol) :: rest, diff =>
    if pyAbs (diff - angle) ≤ tol then some (name, pyAbs (diff - angle))
    else findAspect rest diff

theorem findAspect_eq_none_iff (table : List (String × ℚ × ℚ)) (diff : ℚ) :
    findAspect table diff = none ↔
      ∀ e ∈ table, ¬ |diff - e.2.1| ≤ e.2.2 := by
  induction table with
  | nil => simp [findAspect]
  | cons hd tl ih =>
    obtain ⟨name, angle, tol⟩ := hd
    by_cases h : |diff - angle| ≤ tol
    · simp [findAspect, pyAbs_eq_abs, h]
    · simp only [findAspect, pyAbs_eq_abs, h, if_false, ih]
      constructor
      · intro hall e he
        rcases List.mem_cons.mp he with rfl | hmem
        · exact h
        · exact hall e hmem
      · intro hall e he
        exact hall e (List.mem_cons_of_mem _ he)

theorem findAspect_mem (table : List (String × ℚ × ℚ)) (diff : ℚ)
    (name : String) (orb : ℚ) (h : findAspect table diff = some (name, orb)) :
    ∃ angle tol, (name, angle, tol) ∈ table ∧ orb = |diff - angle| ∧ orb ≤ tol := by
  induction table with
  | nil => simp [findAspect] at h
  | cons hd tl ih =>
    obtain ⟨n, angle, tol⟩ := hd
    by_cases hm : |diff - angle| ≤ tol
    · simp [findAspect, pyAbs_eq_abs, hm] at h
      exact ⟨angle, tol, by simp [h.1], by simp [h.2], h.2 ▸ hm⟩
    · simp [findAspect, pyAbs_eq_abs, hm] at h
      obtain ⟨a, t, ht, ho, hb⟩ := ih h
      exact ⟨a, t, List.mem_cons_of_mem _ ht, ho, hb⟩

theorem findAspect_first (pre post : List (String × ℚ × ℚ)) (diff : ℚ)
    (name : String) (angle tol : ℚ)
    (hpre : ∀ e ∈ pre, ¬ |diff - e.2.1| ≤ e.2.2)
    (hhit : |diff - angle| ≤ tol) :
    findAspect (pre ++ (name, angle, tol) :: post) diff
      = some (name, |diff - angle|) := by
  induction pre with
  | nil => simp [findAspect, pyAbs_eq_abs, hhit]
  | cons hd tl ih =>
    obtain ⟨n, a, t⟩ := hd
    have hmiss : ¬ |diff - a| ≤ t := hpre (n, a, t) (by simp)
    simp only [List.cons_append, findAspect, pyAbs_eq_abs, hmiss, if_false]
    exact ih fun e he => hpre e (List.mem_cons_of_mem _ he)

/-!
Moon-phase calculator (`astrology_service.py:923-997`,
`calculate_moon_phase`).
-/

/-- Result record of `calculate_moon_phase`. -/
structure MoonPhaseResult where
  name : String
  icon : String
  illumination : ℚ
  phase_angle : ℚ
  deriving DecidableEq, Repr

/-- The `MAJOR_PHASES` dict (`astrology_service.py:946-951`), in insertion
order: exact angle, phase name, icon. -/
def MAJOR_PHASES : List (ℚ × String × String) :=
  [(0, "New Moon", "new_moon"), (90, "First Quarter", "first_quarter"),
   (180, "Full Moon", "full_moon"), (270, "Last Quarter", "last_quarter")]

/-- The major-phase scan of `calculate_moon_phase`: wrap-aware distance to
each cardinal angle (the source inlines the same
`diff = abs(..); if diff > 180: diff = 360 - diff` lines as the aspect
engine, here shared as `angularDistance`), first phase within the ±5°
tolerance (`MAJOR_TOLERANCE = 5.0`) wins. -/
def findMajorPhase : List (ℚ × String × String) → ℚ → Option (String × String)
  | [], _ => none
  | (angle, name, icon) :: rest, phase_angle =>
    if angularDistance phase_angle angle ≤ 5 then some (name, icon)
    else findMajorPhase rest phase_angle

/-- The `intermediate_phases` list (`astrology_service.py:968-977`):
name, icon, half-open range `[lo, hi)`. -/
def intermediate_phases : List (String × String × ℚ × ℚ) :=
  [("Waxing Crescent", "waxing_crescent", 5, 85),
   ("Waxing Gibbous", "waxing_gibbous", 95, 175),
   ("Waning Gibbous", "waning_gibbous", 185, 265),
   ("Waning Crescent", "waning_crescent", 275, 355)]

/-- The intermediate-phase scan of `calculate_moon_phase`: first phase whose
range `lo <= phase_angle < hi` contains the angle wins. -/
def findIntermediatePhase : List (String × String × ℚ × ℚ) → ℚ → Option (String × String)
  | [], _ => none
  | (name, icon, lo, hi) :: rest, phase_angle =>
    if lo ≤ phase_angle ∧ phase_angle < hi then some (name, icon)
    else findIntermediatePhase rest phase_angle

/-- `calculate_moon_phase(sun_longitude, moon_longitude)`
(`astrology_service.py:923-997`): phase angle, triangular illumination,
major-phase windows first, then intermediate ranges, then the terminal
fallback returning `"New Moon"`. -/
def calculate_moon_phase (sun_longitude moon_longitude : ℚ) : MoonPhaseResult :=
  let phase_angle := mod360 (moon_longitude - sun_longitude)
  let illumination :=
    if phase_angle ≤ 180 then phase_angle / 180 * 100
    else (360 - phase_angle) / 180 * 100
  match findMajorPhase MAJOR_PHASES phase_angle with
  | some (name, icon) =>
    ⟨name, icon, pyRound1 illumination, pyRound1 phase_angle⟩
  | none =>
    match findIntermediatePhase intermediate_phases phase_angle with
    | some (name, icon) =>
      ⟨name, icon, pyRound1 illumination, pyRound1 phase_angle⟩
    | none =>
      ⟨"New Moon", "new_moon", pyRound1 illumination, pyRound1 phase_angle⟩

/-!
Aspect harmony table and manual synastry fallback
(`astrology_service.py:68-75` and `:736-775`).
-/

/-- The `ASPECT_HARMONY` dict (`astrology_service.py:68-75`). -/
def ASPECT_HARMONY : List (String × ℚ) :=
  [("conjunction", 5), ("sextile", 7), ("square", -6),
   ("trine", 8), ("opposition", -5), ("quincunx", -3)]

/-- `ASPECT_HARMONY.get(name, 0)`. -/
def aspectHarmony (name : String) : ℚ :=
  match ASPECT_HARMONY.lookup name with
  | some h => h
  | none => 0

/-- The per-planet data `calculate_manual_synastry` reads from a chart
entry: the display name (`"planet_name"`) and the absolute longitude
(`"degree"`, defaulting to 0 when absent is not modelled because the
pipeline always writes it). -/
structure PlanetEntry where
  planet_name : String
  degree : ℚ
  deriving DecidableEq, Repr

/-- A chart as consumed by `calculate_manual_synastry`: a lookup from the
lower-case planet keys (`"sun"`, ...) to an optional planet entry
(`chart.get(p)` is falsy when the key is missing). -/
def Chart : Type := String → Option PlanetEntry

/-- A synastry aspect as built by the manual fallback (the static
`interpretation` and `aspect_symbol` strings are presentation-only and are
not modelled). -/
structure ManualAspect where
  person1_planet : String
  person2_planet : String
  aspect_type : String
  orb : ℚ
  harmony_score : ℚ
  deriving DecidableEq, Repr

/-- The `planets` list of `calculate_manual_synastry`
(`astrology_service.py:739`). -/
def manualSynastryPlanets : List String :=
  ["sun", "moon", "venus", "mars", "mercury"]

/-- One inner iteration of `calculate_manual_synastry`'s double loop: when
both charts carry the planet, run the angle-distance algorithm and emit the
first matching aspect, with the orb rounded to 2 decimals. -/
def manualPairAspect (chart1 chart2 : Chart) (p1 p2 : String) :
    Option ManualAspect :=
  match chart1 p1, chart2 p2 with
  | some e1, some e2 =>
    (findAspect manualSynastryAspectAngles
        (angularDistance e1.degree e2.degree)).map
      fun na => ⟨e1.planet_name, e2.planet_name, na.1,
                 pyRound2 na.2, aspectHarmony na.1⟩
  | _, _ => none

/-- `calculate_manual_synastry(chart1, chart2)`
(`astrology_service.py:736-775`): the five named planets pairwise, in loop
order, at most one aspect per pair. -/
def calculate_manual_synastry (chart1 chart2 : Chart) : List ManualAspect :=
  (manualSynastryPlanets.map fun p1 =>
    manualSynastryPlanets.filterMap fun p2 =>
      manualPairAspect chart1 chart2 p1 p2).flatten

/-- A raw aspect record as produced by the kerykeion library (only the
fields read by the formatting code are modelled). -/
structure RawAspect where
  p1_name : String
  p2_name : String
  aspect : String
  orbit : ℚ
  deriving DecidableEq, Repr

/-- A formatted synastry aspect (`format_synastry_aspects`,
`astrology_service.py:714-733`); interpretation/symbol strings omitted. -/
structure FormattedSynastryAspect where
  person1_planet : String
  person2_planet : String
  aspect_type : String
  orb : ℚ
  harmony_score : ℚ
  deriving DecidableEq, Repr

/-- `format_synastry_aspects(aspects_list)`: the first 20 raw aspects,
lower-cased type, harmony from `ASPECT_HARMONY`, orb rounded to 2
decimals. -/
def format_synastry_aspects (aspects_list : List RawAspect) :
    List FormattedSynastryAspect :=
  (aspects_list.take 20).map fun a =>
    ⟨a.p1_name, a.p2_name, a.aspect.toLower,
     pyRound2 a.orbit, aspectHarmony a.aspect.toLower⟩

/-- A formatted natal aspect (`format_aspects`,
`astrology_service.py:549-564`); interpretation/symbol strings omitted. -/
structure FormattedNatalAspect where
  planet1 : String
  planet2 : String
  aspect_type : String
  orb : ℚ
  deriving DecidableEq, Repr

/-- `format_aspects(aspects_list)`: the first 15 raw aspects, lower-cased
type, orb rounded to 2 decimals. -/
def format_aspects (aspects_list : List RawAspect) :
    List FormattedNatalAspect :=
  (aspects_list.take 15).map fun a =>
    ⟨a.p1_name, a.p2_name, a.aspect.toLower, pyRound2 a.orbit⟩

/-- The `try/except` around natal aspect extraction in
`calculate_natal_chart` (`astrology_service.py:519-524`): the library
outcome is either its aspect list or an exception message. -/
def natalChartAspects (libResult : Except String (List RawAspect)) :
    List FormattedNatalAspect :=
  match libResult with
  | .ok aspects => format_aspects aspects
  | .error _ => []

/-- A synastry aspect list from either path of `calculate_synastry`'s
`try/except` (`astrology_service.py:683-688`): the formatted library
aspects on success, the manual fallback on exception.  The manual fallback
produces records with the same fields. -/
def synastryAspects (libResult : Except String (List RawAspect))
    (chart1 chart2 : Chart) : List FormattedSynastryAspect :=
  match libResult with
  | .ok aspects => format_synastry_aspects aspects
  | .error _ =>
    (calculate_manual_synastry chart1 chart2).map
      fun a => ⟨a.person1_planet, a.person2_planet, a.aspect_type,
                a.orb, a.harmony_score⟩

/-!
Compatibility scoring in `astrology_service.py`
(`calculate_compatibility_scores`, lines 819-881).
-/

/-- The chart fields consumed by the two scoring functions: the Sun and
Moon elements (`chart.get("sun"/"moon", {}).get("element", "")`); a missing
planet yields the empty string. -/
structure ChartElements where
  sunElement : String
  moonElement : String
  deriving DecidableEq, Repr

/-- The aspect fields consumed by `calculate_compatibility_scores`. -/
structure CompatAspect where
  person1_planet : String
  person2_planet : String
  harmony_score : ℚ
  deriving DecidableEq, Repr

/-- Loop accumulator of `calculate_compatibility_scores`. -/
structure CompatAcc where
  total_harmony : ℚ
  emotional_score : ℚ
  intellectual_score : ℚ
  physical_score : ℚ
  spiritual_score : ℚ
  harmonious_count : ℕ
  challenging_count : ℕ
  deriving DecidableEq, Repr

def emotional_planets : List String := ["Moon", "Venus", "Neptune"]
def intellectual_planets : List String := ["Mercury", "Jupiter", "Uranus"]
def physical_planets : List String := ["Mars", "Venus", "Sun"]
def spiritual_planets : List String := ["Neptune", "Jupiter", "Pluto"]

/-- One iteration of the aspect loop of `calculate_compatibility_scores`
(`astrology_service.py:835-854`). -/
def compatStep (acc : CompatAcc) (a : CompatAspect) : CompatAcc :=
  let harmony := a.harmony_score
  let p1 := a.person1_planet
  let p2 := a.person2_planet
  { total_harmony := acc.total_harmony + harmony
    emotional_score :=
      if p1 ∈ emotional_planets ∨ p2 ∈ emotional_planets then
        acc.emotional_score + harmony * 3 else acc.emotional_score
    intellectual_score :=
      if p1 ∈ intellectual_planets ∨ p2 ∈ intellectual_planets then
        acc.intellectual_score + harmony * 3 else acc.intellectual_score
    physical_score :=
      if p1 ∈ physical_planets ∨ p2 ∈ physical_planets then
        acc.physical_score + harmony * 3 else acc.physical_score
    spiritual_score :=
      if p1 ∈ spiritual_planets ∨ p2 ∈ spiritual_planets then
        acc.spiritual_score + harmony * 3 else acc.spiritual_score
    harmonious_count :=
      if harmony > 0 then acc.harmonious_count + 1 else acc.harmonious_count
    challenging_count :=
      if harmony < 0 then acc.challenging_count + 1 else acc.challenging_count }

/-- The scores returned by `calculate_compatibility_scores`. -/
structure CompatibilityScores where
  overall : ℤ
  emotional : ℤ
  intellectual : ℤ
  physical : ℤ
  spiritual : ℤ
  harmonious_count : ℕ
  challenging_count : ℕ
  deriving DecidableEq, Repr

/-- The inner `normalize` of `calculate_compatibility_scores`
(`astrology_service.py:866-867`): `max(0, min(100, int(score)))`. -/
def compatNormalize (score : ℚ) : ℤ := max 0 (min 100 (ratTrunc score))

/-- `calculate_compatibility_scores(aspects, chart1, chart2)`
(`astrology_service.py:819-881`): category scores start at 50, each aspect
touching a category's planet list moves it by `harmony * 3`; the Sun
element match adds 10 (same element) or 5 (compatible elements) to the
total; `overall = max(0, min(100, int(50 + total_harmony * 2)))`. -/
def calculate_compatibility_scores (aspects : List CompatAspect)
    (chart1 chart2 : ChartElements) : CompatibilityScores :=
  let acc := aspects.foldl compatStep ⟨0, 50, 50, 50, 50, 0, 0⟩
  let sun1_elem := chart1.sunElement
  let sun2_elem := chart2.sunElement
  let total_harmony :=
    if sun1_elem = sun2_elem then acc.total_harmony + 10
    else if (sun1_elem ∈ ["Fire", "Air"] ∧ sun2_elem ∈ ["Fire", "Air"]) ∨
            (sun1_elem ∈ ["Earth", "Water"] ∧ sun2_elem ∈ ["Earth", "Water"]) then
      acc.total_harmony + 5
    else acc.total_harmony
  let base_score := 50 + total_harmony * 2
  { overall := compatNormalize base_score
    emotional := compatNormalize acc.emotional_score
    intellectual := compatNormalize acc.intellectual_score
    physical := compatNormalize acc.physical_score
    spiritual := compatNormalize acc.spiritual_score
    harmonious_count := acc.harmonious_count
    challenging_count := acc.challenging_count }

/-!
Weighted synastry scorer (`synastry_analysis_service.py`): base score
tables, planet-pair weights, special combination scores, and
`calculate_weighted_score`.
-/

/-- An entry of `ASPECT_BASE_SCORES`: either a plain score or, for the
conjunction, a pair of planet-dependent scores. -/
inductive BaseScoreEntry where
  | fixed (score : ℚ)
  | byPlanets (harmonious challenging : ℚ)
  deriving DecidableEq, Repr

/-- The `ASPECT_BASE_SCORES` dict (`synastry_analysis_service.py:20-27`). -/
def ASPECT_BASE_SCORES : List (String × BaseScoreEntry) :=
  [("conjunction", .byPlanets 10 (-3)), ("trine", .fixed 8),
   ("sextile", .fixed 5), ("square", .fixed (-6)),
   ("opposition", .fixed (-4)), ("quincunx", .fixed (-2))]

/-- Value of a `PLANET_PAIR_WEIGHTS` entry. -/
structure PairInfo where
  weight : ℚ
  category : String
  meaning : String
  deriving DecidableEq, Repr

/-- The `PLANET_PAIR_WEIGHTS` dict (`synastry_analysis_service.py:29-103`). -/
def PLANET_PAIR_WEIGHTS : List ((String × String) × PairInfo) :=
  [(("Sun", "Sun"), ⟨3/2, "emotional", "core identity alignment"⟩),
   (("Sun", "Moon"), ⟨2, "emotional", "soul connection"⟩),
   (("Moon", "Sun"), ⟨2, "emotional", "emotional-identity bond"⟩),
   (("Moon", "Moon"), ⟨9/5, "emotional", "emotional synchronicity"⟩),
   (("Venus", "Mars"), ⟨2, "chemistry", "romantic/physical attraction"⟩),
   (("Mars", "Venus"), ⟨2, "chemistry", "passionate chemistry"⟩),
   (("Venus", "Venus"), ⟨3/2, "chemistry", "shared love language"⟩),
   (("Mars", "Mars"), ⟨6/5, "chemistry", "drive compatibility"⟩),
   (("Sun", "Venus"), ⟨13/10, "chemistry", "admiration and affection"⟩),
   (("Venus", "Sun"), ⟨13/10, "chemistry", "attraction to identity"⟩),
   (("Moon", "Venus"), ⟨7/5, "emotional", "emotional comfort in love"⟩),
   (("Venus", "Moon"), ⟨7/5, "emotional", "nurturing affection"⟩),
   (("Mercury", "Mercury"), ⟨6/5, "intellectual", "mental wavelength"⟩),
   (("Mercury", "Sun"), ⟨1, "intellectual", "understanding each other"⟩),
   (("Sun", "Mercury"), ⟨1, "intellectual", "mental connection"⟩),
   (("Mercury", "Moon"), ⟨11/10, "emotional", "emotional understanding"⟩),
   (("Moon", "Mercury"), ⟨11/10, "emotional", "communicating feelings"⟩),
   (("Mercury", "Venus"), ⟨9/10, "intellectual", "sweet communication"⟩),
   (("Venus", "Mercury"), ⟨9/10, "intellectual", "loving words"⟩),
   (("Saturn", "Sun"), ⟨3/2, "challenges", "stability or restriction"⟩),
   (("Sun", "Saturn"), ⟨3/2, "challenges", "growth through limits"⟩),
   (("Saturn", "Moon"), ⟨8/5, "challenges", "emotional security or coldness"⟩),
   (("Moon", "Saturn"), ⟨8/5, "challenges", "emotional lessons"⟩),
   (("Saturn", "Venus"), ⟨7/5, "challenges", "committed love or restriction"⟩),
   (("Venus", "Saturn"), ⟨7/5, "challenges", "lasting affection"⟩),
   (("Saturn", "Mars"), ⟨13/10, "challenges", "disciplined action or frustration"⟩),
   (("Mars", "Saturn"), ⟨13/10, "challenges", "controlled passion"⟩),
   (("Pluto", "Sun"), ⟨3/2, "challenges", "transformative power"⟩),
   (("Sun", "Pluto"), ⟨3/2, "challenges", "profound change"⟩),
   (("Pluto", "Moon"), ⟨8/5, "challenges", "deep emotional transformation"⟩),
   (("Moon", "Pluto"), ⟨8/5, "challenges", "psychological intensity"⟩),
   (("Pluto", "Venus"), ⟨7/5, "chemistry", "obsessive attraction"⟩),
   (("Venus", "Pluto"), ⟨7/5, "chemistry", "magnetic pull"⟩),
   (("Pluto", "Mars"), ⟨13/10, "chemistry", "explosive passion"⟩),
   (("Mars", "Pluto"), ⟨13/10, "chemistry", "intense drive"⟩),
   (("Jupiter", "Sun"), ⟨6/5, "emotional", "expansion and joy"⟩),
   (("Sun", "Jupiter"), ⟨6/5, "emotional", "optimism together"⟩),
   (("Jupiter", "Moon"), ⟨11/10, "emotional", "emotional growth"⟩),
   (("Moon", "Jupiter"), ⟨11/10, "emotional", "feeling blessed"⟩),
   (("Jupiter", "Venus"), ⟨13/10, "chemistry", "abundant love"⟩),
   (("Venus", "Jupiter"), ⟨13/10, "chemistry", "generosity in love"⟩),
   (("Uranus", "Sun"), ⟨1, "challenges", "excitement or instability"⟩),
   (("Sun", "Uranus"), ⟨1, "challenges", "unique connection"⟩),
   (("Uranus", "Moon"), ⟨11/10, "challenges", "emotional unpredictability"⟩),
   (("Moon", "Uranus"), ⟨11/10, "challenges", "exciting instability"⟩),
   (("Uranus", "Venus"), ⟨6/5, "chemistry", "electric attraction"⟩),
   (("Venus", "Uranus"), ⟨6/5, "chemistry", "unconventional love"⟩),
   (("Neptune", "Sun"), ⟨1, "emotional", "idealization"⟩),
   (("Sun", "Neptune"), ⟨1, "emotional", "spiritual connection"⟩),
   (("Neptune", "Moon"), ⟨6/5, "emotional", "psychic bond"⟩),
   (("Moon", "Neptune"), ⟨6/5, "emotional", "dreamy emotions"⟩),
   (("Neptune", "Venus"), ⟨13/10, "chemistry", "romantic fantasy"⟩),
   (("Venus", "Neptune"), ⟨13/10, "chemistry", "idealized love"⟩)]

/-- The `SPECIAL_ASPECT_SCORES` dict
(`synastry_analysis_service.py:105-135`). -/
def SPECIAL_ASPECT_SCORES : List ((String × String × String) × ℚ) :=
  [(("Sun", "Moon", "conjunction"), 15),
   (("Sun", "Moon", "trine"), 12),
   (("Sun", "Moon", "sextile"), 8),
   (("Sun", "Moon", "square"), -5),
   (("Sun", "Moon", "opposition"), -3),
   (("Venus", "Mars", "conjunction"), 15),
   (("Venus", "Mars", "trine"), 12),
   (("Venus", "Mars", "sextile"), 10),
   (("Venus", "Mars", "square"), 5),
   (("Venus", "Mars", "opposition"), 8),
   (("Saturn", "Sun", "trine"), 8),
   (("Saturn", "Sun", "sextile"), 6),
   (("Saturn", "Sun", "conjunction"), -3),
   (("Saturn", "Sun", "square"), -10),
   (("Saturn", "Sun", "opposition"), -8),
   (("Pluto", "Sun", "trine"), 6),
   (("Pluto", "Sun", "square"), -8),
   (("Pluto", "Venus", "conjunction"), 10),
   (("Pluto", "Venus", "square"), -6),
   (("Mercury", "Mercury", "conjunction"), 8),
   (("Mercury", "Mercury", "trine"), 6),
   (("Mercury", "Mercury", "square"), -5)]

/-- The default-branch base score of `calculate_weighted_score`
(`synastry_analysis_service.py:199-209`): `ASPECT_BASE_SCORES.get(t, 0)`,
with the conjunction entry resolved by whether either planet is Saturn or
Pluto. -/
def defaultBaseScore (p1 p2 aspect_type : String) : ℚ :=
  match ASPECT_BASE_SCORES.lookup aspect_type with
  | some (.byPlanets harmonious challenging) =>
    if p1 ∈ ["Saturn", "Pluto"] ∨ p2 ∈ ["Saturn", "Pluto"] then challenging
    else harmonious
  | some (.fixed s) => s
  | none => 0

/-- The base score of an aspect in `calculate_weighted_score`
(`synastry_analysis_service.py:191-209`): the special `(p1, p2, type)`
lookup, then the reversed key, then the generic per-type score. -/
def baseScoreFor (p1 p2 aspect_type : String) : ℚ :=
  match SPECIAL_ASPECT_SCORES.lookup (p1, p2, aspect_type) with
  | some s => s
  | none =>
    match SPECIAL_ASPECT_SCORES.lookup (p2, p1, aspect_type) with
    | some s => s
    | none => defaultBaseScore p1 p2 aspect_type

/-- The pair info of an aspect in `calculate_weighted_score`
(`synastry_analysis_service.py:178-185`): direct key, reversed key, then
the `{weight: 0.5, category: "emotional"}` default. -/
def pairInfoFor (p1 p2 : String) : PairInfo :=
  match PLANET_PAIR_WEIGHTS.lookup (p1, p2) with
  | some info => info
  | none =>
    match PLANET_PAIR_WEIGHTS.lookup (p2, p1) with
    | some info => info
    | none => ⟨1/2, "emotional", "general connection"⟩

/-- The orb modifier of `calculate_weighted_score`
(`synastry_analysis_service.py:211-212`): `max(0.5, 1 - orb / 10)`. -/
def orb_modifier (orb : ℚ) : ℚ := max (1/2) (1 - orb / 10)

/-- The aspect fields consumed by `calculate_weighted_score`. -/
structure SynAspect where
  person1_planet : String
  person2_planet : String
  aspect_type : String
  orb : ℚ
  deriving DecidableEq, Repr

/-- The final per-aspect contribution of `calculate_weighted_score`
(`synastry_analysis_service.py:213`):
`base_score * weight * orb_modifier`. -/
def finalScore (base_score weight orb : ℚ) : ℚ :=
  base_score * weight * orb_modifier orb

/-- Loop accumulator of `calculate_weighted_score` (the per-category
aspect-description lists fed to the AI prompt builder are not modelled;
they do not influence any score). -/
structure WeightedAcc where
  chemistry_raw : ℚ
  emotional_raw : ℚ
  intellectual_raw : ℚ
  challenges_raw : ℚ
  total_weighted_score : ℚ
  max_possible_score : ℚ
  deriving DecidableEq, Repr

/-- One iteration of the aspect loop of `calculate_weighted_score`
(`synastry_analysis_service.py:172-250`). -/
def weightedStep (acc : WeightedAcc) (a : SynAspect) : WeightedAcc :=
  let p1 := a.person1_planet
  let p2 := a.person2_planet
  let aspect_type := a.aspect_type.toLower
  let info := pairInfoFor p1 p2
  let base_score := baseScoreFor p1 p2 aspect_type
  let final_score := finalScore base_score info.weight a.orb
  { chemistry_raw :=
      if info.category = "chemistry" then acc.chemistry_raw + final_score
      else acc.chemistry_raw
    emotional_raw :=
      if info.category = "emotional" then acc.emotional_raw + final_score
      else acc.emotional_raw
    intellectual_raw :=
      if info.category = "intellectual" then acc.intellectual_raw + final_score
      else acc.intellectual_raw
    challenges_raw :=
      if info.category = "challenges" then acc.challenges_raw + final_score
      else acc.challenges_raw
    total_weighted_score := acc.total_weighted_score + final_score
    max_possible_score := acc.max_possible_score + |base_score * info.weight| }

/-- Raw totals of the aspect loop of `calculate_weighted_score`. -/
def weightedTotals (aspects : List SynAspect) : WeightedAcc :=
  aspects.foldl weightedStep ⟨0, 0, 0, 0, 0, 0⟩

/-- `_elements_compatible(elem1, elem2)`
(`synastry_analysis_service.py:302-310`). -/
def elements_compatible (elem1 elem2 : String) : Bool :=
  (elem1, elem2) ∈ [("Fire", "Air"), ("Air", "Fire"),
                    ("Earth", "Water"), ("Water", "Earth")]

/-- The scores returned by `calculate_weighted_score` (the sorted
aspect-description lists are not modelled). -/
structure WeightedScores where
  overall : ℤ
  chemistry : ℤ
  emotional : ℤ
  intellectual : ℤ
  challenges_score : ℤ
  element_bonus : ℚ
  sun_match : Bool
  moon_match : Bool
  deriving DecidableEq, Repr

/-- The inner `normalize(raw_score, base=50, scale=3)` of
`calculate_weighted_score` (`synastry_analysis_service.py:276-277`). -/
def weightedNormalize (raw_score base scale : ℚ) : ℤ :=
  max 0 (min 100 (ratTrunc (base + raw_score * scale)))

/-- The Sun part of the element bonus of `calculate_weighted_score`
(`synastry_analysis_service.py:259-263`). -/
def sunElementBonus (chart1 chart2 : ChartElements) : ℚ :=
  if chart1.sunElement = chart2.sunElement then 8
  else if elements_compatible chart1.sunElement chart2.sunElement then 4 else 0

/-- The Moon part of the element bonus of `calculate_weighted_score`
(`synastry_analysis_service.py:265-270`). -/
def moonElementBonus (chart1 chart2 : ChartElements) : ℚ :=
  if chart1.moonElement = chart2.moonElement then 6
  else if elements_compatible chart1.moonElement chart2.moonElement then 3 else 0

/-- The extra raw emotional points granted alongside the Moon element
bonus (`synastry_analysis_service.py:266-270`). -/
def moonEmotionalBonus (chart1 chart2 : ChartElements) : ℚ :=
  if chart1.moonElement = chart2.moonElement then 5
  else if elements_compatible chart1.moonElement chart2.moonElement then 3 else 0

/-- `calculate_weighted_score(aspects, chart1, chart2)`
(`synastry_analysis_service.py:146-300`): per-aspect weighted
contributions, Sun/Moon element bonuses (the Moon bonus also feeds the
emotional raw total), guarded overall normalization clamped to `[15, 95]`,
and category scores clamped to `[0, 100]`. -/
def calculate_weighted_score (aspects : List SynAspect)
    (chart1 chart2 : ChartElements) : WeightedScores :=
  let acc := weightedTotals aspects
  let emotional_raw := acc.emotional_raw + moonEmotionalBonus chart1 chart2
  let element_bonus := sunElementBonus chart1 chart2 + moonElementBonus chart1 chart2
  let total_weighted_score := acc.total_weighted_score + element_bonus
  let overall_raw : ℤ :=
    if acc.max_possible_score > 0 then
      ratTrunc (50 + total_weighted_score / acc.max_possible_score * 50)
    else 50
  { overall := max 15 (min 95 overall_raw)
    chemistry := weightedNormalize acc.chemistry_raw 50 (5/2)
    emotional := weightedNormalize emotional_raw 50 (5/2)
    intellectual := weightedNormalize acc.intellectual_raw 50 3
    challenges_score := max 0 (min 100 (ratTrunc (50 - acc.challenges_raw * 2)))
    element_bonus := element_bonus
    sun_match := chart1.sunElement = chart2.sunElement
    moon_match := chart1.moonElement = chart2.moonElement }

/-!
Transit engine (`astrology_service.py:1204-1316`, `calculate_transits`).
-/

/-- A transit aspect as built by `calculate_transits` (sign, symbol and
interpretation strings omitted; they do not influence sorting, truncation
or the energy summary). -/
structure TransitAspect where
  transiting_planet : String
  natal_planet : String
  aspect : String
  orb : ℚ
  harmony : ℚ
  deriving DecidableEq, Repr

/-- The `transit_planets` list (`astrology_service.py:1241`). -/
def transit_planets : List String := ["sun", "moon", "mercury", "venus", "mars"]

/-- The `natal_planets` list (`astrology_service.py:1240`). -/
def natal_planets : List String :=
  ["sun", "moon", "mercury", "venus", "mars", "jupiter", "saturn"]

/-- One inner iteration of `calculate_transits`' double loop
(`astrology_service.py:1259-1294`): skip missing natal planets, run the
angle-distance algorithm, emit the first matching aspect with the orb
rounded to 1 decimal and the harmony from `ASPECT_HARMONY`. -/
def transitPairAspect (transit_planet : String) (transit_degree : ℚ)
    (natal_chart : Chart) (natal_planet : String) : Option TransitAspect :=
  match natal_chart natal_planet with
  | none => none
  | some natal_data =>
    (findAspect transitAspectAngles
        (angularDistance transit_degree natal_data.degree)).map
      fun na => ⟨transit_planet.capitalize, natal_data.planet_name,
                 na.1, pyRound1 na.2, aspectHarmony na.1⟩

/-- The unsorted `transit_aspects` list of `calculate_transits`
(`astrology_service.py:1258-1294`): transiting planets with a known
current position against all natal planets, in loop order. -/
def buildTransitAspects (current_positions : String → Option ℚ)
    (natal_chart : Chart) : List TransitAspect :=
  (transit_planets.map fun tp =>
    match current_positions tp with
    | none => []
    | some transit_degree =>
      natal_planets.filterMap
        (transitPairAspect tp transit_degree natal_chart)).flatten

/-- The `transits` field of `calculate_transits`' result
(`astrology_service.py:1296-1311`): the aspect list sorted ascending by
orb (Python's stable `list.sort(key=orb)`), truncated to the top 10. -/
def transitsResult (current_positions : String → Option ℚ)
    (natal_chart : Chart) : List TransitAspect :=
  ((buildTransitAspects current_positions natal_chart).mergeSort
    (fun a b => decide (a.orb ≤ b.orb))).take 10

/-- The overall-energy summary of `calculate_transits`
(`astrology_service.py:1302-1309`): mean harmony over all detected transit
aspects, guarded by a non-empty check, classified by sign. -/
def transit_overall_energy (transit_aspects : List TransitAspect) : String × ℚ :=
  let total_harmony := (transit_aspects.map (·.harmony)).sum
  let avg_harmony :=
    if transit_aspects.length > 0 then
      total_harmony / (transit_aspects.length : ℚ)
    else 0
  let energy_type :=
    if avg_harmony > 0 then "harmonious"
    else if avg_harmony < 0 then "challenging"
    else "neutral"
  (energy_type, avg_harmony)

/-!
Claim theorems.
-/

/-- C6: for every pair of longitudes `(a, b)`, the circular angular
distance `diff = |a - b|; if diff > 180: diff = 360 - diff` is symmetric,
and when both longitudes lie in `[0, 360)` the distance lies in
`[0, 180]`. -/
theorem angular_distance_symm_range (a b : ℚ) :
    angularDistance a b = angularDistance b a ∧
    (0 ≤ a → a < 360 → 0 ≤ b → b < 360 →
      0 ≤ angularDistance a b ∧ angularDistance a b ≤ 180) := by
  constructor
  · simp [angularDistance, pyAbs_eq_abs, abs_sub_comm]
  · intro ha0 ha1 hb0 hb1
    have habs : |a - b| < 360 := abs_sub_lt_iff.mpr ⟨by linarith, by linarith⟩
    have h0 : (0 : ℚ) ≤ |a - b| := abs_nonneg _
    have hd : angularDistance a b
        = if |a - b| > 180 then 360 - |a - b| else |a - b| := by
      simp [angularDistance, pyAbs_eq_abs]
    rw [hd]
    split_ifs with h
    · constructor <;> linarith
    · exact ⟨h0, not_lt.mp h⟩

/-- Witness for C6 at the concrete pair `(10, 350)` (wrap-around case,
distance 20). -/
theorem angular_distance_symm_range_witness :
    angularDistance 10 350 = angularDistance 350 10 ∧
    (0 ≤ angularDistance 10 350 ∧ angularDistance 10 350 ≤ 180) :=
  ⟨(angular_distance_symm_range 10 350).1,
   (angular_distance_symm_range 10 350).2 (by norm_num) (by norm_num)
     (by norm_num) (by norm_num)⟩

/-- C5: every aspect's contribution to the weighted synastry score is
`base_score * weight * max(0.5, 1 - orb/10)`; the attenuation factor is
monotonically non-increasing in the orb, and is at least `0.5` for every
orb (in particular every `orb ≥ 0`). -/
theorem orb_attenuation_properties :
    (∀ base_score weight orb : ℚ,
        finalScore base_score weight orb
          = base_score * weight * max (1/2) (1 - orb / 10)) ∧
    (∀ orb1 orb2 : ℚ, orb1 ≤ orb2 → orb_modifier orb2 ≤ orb_modifier orb1) ∧
    (∀ orb : ℚ, 0 ≤ orb → 1/2 ≤ orb_modifier orb) := by
  refine ⟨fun _ _ _ => rfl, fun orb1 orb2 h => ?_, fun orb _ => le_max_left _ _⟩
  unfold orb_modifier
  exact max_le_max le_rfl (by linarith)

/-- Witness for C5 at concrete values: contribution at
`(base, weight, orb) = (8, 2, 3)`, monotonicity at `3 ≤ 4`, floor at
orb `7`. -/
theorem orb_attenuation_properties_witness :
    finalScore 8 2 3 = 8 * 2 * max (1/2) (1 - 3 / 10) ∧
    orb_modifier 4 ≤ orb_modifier 3 ∧
    1/2 ≤ orb_modifier 7 :=
  ⟨orb_attenuation_properties.1 8 2 3,
   orb_attenuation_properties.2.1 3 4 (by norm_num),
   orb_attenuation_properties.2.2 7 (by norm_num)⟩

/-- C2: `calculate_moon_phase` at `sun = 0, moon = 176` reports a
`"Full Moon"` (not `"Waxing Gibbous"`) with illumination `97.8`; at
`sun = 0, moon = 0` a `"New Moon"` with illumination `0`; at
`sun = 0, moon = 180` a `"Full Moon"` with illumination `100`. -/
theorem moon_phase_concrete_values :
    (calculate_moon_phase 0 176).name = "Full Moon" ∧
    (calculate_moon_phase 0 176).name ≠ "Waxing Gibbous" ∧
    (calculate_moon_phase 0 176).illumination = 489/5 ∧
    calculate_moon_phase 0 0 = ⟨"New Moon", "new_moon", 0, 0⟩ ∧
    calculate_moon_phase 0 180 = ⟨"Full Moon", "full_moon", 100, 180⟩ := by
  have h176 : calculate_moon_phase 0 176 = ⟨"Full Moon", "full_moon", 489/5, 176⟩ := by
    have hpa : mod360 (176 - 0) = 176 := by norm_num [mod360]
    have hfm : findMajorPhase MAJOR_PHASES 176 = some ("Full Moon", "full_moon") := by
      norm_num [findMajorPhase, MAJOR_PHASES, angularDistance, pyAbs]
    unfold calculate_moon_phase
    rw [hpa]
    norm_num [hfm, pyRound1, roundHalfEven]
  have h0 : calculate_moon_phase 0 0 = ⟨"New Moon", "new_moon", 0, 0⟩ := by
    have hpa : mod360 (0 - 0) = 0 := by norm_num [mod360]
    have hfm : findMajorPhase MAJOR_PHASES 0 = some ("New Moon", "new_moon") := by
      norm_num [findMajorPhase, MAJOR_PHASES, angularDistance, pyAbs]
    unfold calculate_moon_phase
    rw [hpa]
    norm_num [hfm, pyRound1, roundHalfEven]
  have h180 : calculate_moon_phase 0 180 = ⟨"Full Moon", "full_moon", 100, 180⟩ := by
    have hpa : mod360 (180 - 0) = 180 := by norm_num [mod360]
    have hfm : findMajorPhase MAJOR_PHASES 180 = some ("Full Moon", "full_moon") := by
      norm_num [findMajorPhase, MAJOR_PHASES, angularDistance, pyAbs]
    unfold calculate_moon_phase
    rw [hpa]
    norm_num [hfm, pyRound1, roundHalfEven]
  exact ⟨by rw [h176], by rw [h176]; decide, by rw [h176], h0, h180⟩

/-- C1: in the manual synastry and transit aspect loops, candidates are
tried in the fixed order conjunction, sextile, square, trine, opposition;
an aspect is emitted iff `|diff - angle| ≤ tolerance`; the scan stops at
the first match (so at most one aspect is emitted per planet pair, the
result being an `Option`); and the reported orb is `|diff - angle|`, which
is at most the matched candidate's tolerance. -/
theorem aspect_first_match_semantics :
    ∀ table : List (String × ℚ × ℚ),
      table = manualSynastryAspectAngles ∨ table = transitAspectAngles →
      table.map Prod.fst
          = ["conjunction", "sextile", "square", "trine", "opposition"] ∧
      ∀ diff : ℚ,
        (findAspect table diff = none ↔
          ∀ e ∈ table, ¬ |diff - e.2.1| ≤ e.2.2) ∧
        (∀ name orb, findAspect table diff = some (name, orb) →
          ∃ angle tol, (name, angle, tol) ∈ table ∧
            orb = |diff - angle| ∧ orb ≤ tol) ∧
        (∀ pre name angle tol post,
          table = pre ++ (name, angle, tol) :: post →
          (∀ e ∈ pre, ¬ |diff - e.2.1| ≤ e.2.2) →
          |diff - angle| ≤ tol →
          findAspect table diff = some (name, |diff - angle|)) := by
  intro table htable
  constructor
  · rcases htable with rfl | rfl <;> rfl
  · intro diff
    refine ⟨findAspect_eq_none_iff table diff,
            fun name orb h => findAspect_mem table diff name orb h,
            fun pre name angle tol post heq hpre hhit => ?_⟩
    exact heq ▸ findAspect_first pre post diff name angle tol hpre hhit

/-- Witness for C1: in the manual synastry table, `diff = 61.5` skips the
conjunction and stops at the sextile with orb `1.5`. -/
theorem aspect_first_match_semantics_witness :
    findAspect manualSynastryAspectAngles (123/2)
      = some ("sextile", |(123 : ℚ)/2 - 60|) :=
  ((aspect_first_match_semantics manualSynastryAspectAngles
      (Or.inl rfl)).2 (123/2)).2.2
    [("conjunction", 0, 8)] "sextile" 60 6
    [("square", 90, 6), ("trine", 120, 8), ("opposition", 180, 8)]
    rfl
    (by intro e he; simp only [List.mem_singleton] at he; subst he
        simp only [← pyAbs_eq_abs]; norm_num [pyAbs])
    (by simp only [← pyAbs_eq_abs]; norm_num [pyAbs])

/-- C4 counterexample: the aspect (Venus, Venus, sextile) has no
special-case entry, and its generic base score in the code is 5, not the
claimed 7.  (Similarly opposition is -4 not -5, quincunx -2 not -3, and a
non-Saturn/Pluto conjunction is 10 not 5.) -/
theorem generic_sextile_score_counterexample :
    SPECIAL_ASPECT_SCORES.lookup ("Venus", "Venus", "sextile") = none ∧
    baseScoreFor "Venus" "Venus" "sextile" = 5 ∧
    ¬ baseScoreFor "Venus" "Venus" "sextile" = 7 := by
  refine ⟨by decide, by decide, by decide⟩

/-- C4 (amended): an aspect with no special-case `(planet1, planet2,
aspect_type)` entry (in either key order) receives the generic
per-aspect-type base score: trine +8, sextile +5, square -6, opposition
-4, conjunction +10 unless either planet is Saturn or Pluto in which case
-3, quincunx -2. -/
theorem generic_base_scores (p1 p2 aspect_type : String)
    (h1 : SPECIAL_ASPECT_SCORES.lookup (p1, p2, aspect_type) = none)
    (h2 : SPECIAL_ASPECT_SCORES.lookup (p2, p1, aspect_type) = none) :
    baseScoreFor p1 p2 aspect_type = defaultBaseScore p1 p2 aspect_type ∧
    (aspect_type = "trine" → baseScoreFor p1 p2 aspect_type = 8) ∧
    (aspect_type = "sextile" → baseScoreFor p1 p2 aspect_type = 5) ∧
    (aspect_type = "square" → baseScoreFor p1 p2 aspect_type = -6) ∧
    (aspect_type = "opposition" → baseScoreFor p1 p2 aspect_type = -4) ∧
    (aspect_type = "quincunx" → baseScoreFor p1 p2 aspect_type = -2) ∧
    (aspect_type = "conjunction" →
      baseScoreFor p1 p2 aspect_type =
        if p1 ∈ ["Saturn", "Pluto"] ∨ p2 ∈ ["Saturn", "Pluto"] then -3
        else 10) := by
  have hbase : baseScoreFor p1 p2 aspect_type
      = defaultBaseScore p1 p2 aspect_type := by
    unfold baseScoreFor
    rw [h1, h2]
  refine ⟨hbase, ?_, ?_, ?_, ?_, ?_, ?_⟩ <;>
    (intro ht; subst ht; rw [hbase]) <;> rfl

/-- Witness for C4 (amended) at the concrete aspect
(Mercury, Venus, trine), which has no special-case entry. -/
theorem generic_base_scores_witness :
    SPECIAL_ASPECT_SCORES.lookup ("Mercury", "Venus", "trine") = none ∧
    SPECIAL_ASPECT_SCORES.lookup ("Venus", "Mercury", "trine") = none ∧
    baseScoreFor "Mercury" "Venus" "trine" = 8 :=
  ⟨by decide, by decide,
   (generic_base_scores "Mercury" "Venus" "trine"
      (by decide) (by decide)).2.1 rfl⟩

theorem clampZ_bounds (lo hi x : ℤ) (h : lo ≤ hi) :
    lo ≤ max lo (min hi x) ∧ max lo (min hi x) ≤ hi :=
  ⟨le_max_left _ _, max_le h (min_le_left _ _)⟩

/-- C3 counterexample: eight Saturn-Saturn squares (harmony -6 each, as
`ASPECT_HARMONY` assigns to a square) drive
`calculate_compatibility_scores` to `overall = 0`, which is outside the
claimed `[15, 95]`: this implementation clamps `overall` to `[0, 100]`
only. -/
theorem overall_range_counterexample :
    (calculate_compatibility_scores
      [⟨"Saturn", "Saturn", -6⟩, ⟨"Saturn", "Saturn", -6⟩,
       ⟨"Saturn", "Saturn", -6⟩, ⟨"Saturn", "Saturn", -6⟩,
       ⟨"Saturn", "Saturn", -6⟩, ⟨"Saturn", "Saturn", -6⟩,
       ⟨"Saturn", "Saturn", -6⟩, ⟨"Saturn", "Saturn", -6⟩]
      ⟨"Fire", ""⟩ ⟨"Water", ""⟩).overall = 0 ∧
    ¬ (15 ≤ (calculate_compatibility_scores
      [⟨"Saturn", "Saturn", -6⟩, ⟨"Saturn", "Saturn", -6⟩,
       ⟨"Saturn", "Saturn", -6⟩, ⟨"Saturn", "Saturn", -6⟩,
       ⟨"Saturn", "Saturn", -6⟩, ⟨"Saturn", "Saturn", -6⟩,
       ⟨"Saturn", "Saturn", -6⟩, ⟨"Saturn", "Saturn", -6⟩]
      ⟨"Fire", ""⟩ ⟨"Water", ""⟩).overall) := by
  have h : (calculate_compatibility_scores
      [⟨"Saturn", "Saturn", -6⟩, ⟨"Saturn", "Saturn", -6⟩,
       ⟨"Saturn", "Saturn", -6⟩, ⟨"Saturn", "Saturn", -6⟩,
       ⟨"Saturn", "Saturn", -6⟩, ⟨"Saturn", "Saturn", -6⟩,
       ⟨"Saturn", "Saturn", -6⟩, ⟨"Saturn", "Saturn", -6⟩]
      ⟨"Fire", ""⟩ ⟨"Water", ""⟩).overall = 0 := by
    simp +decide only [calculate_compatibility_scores, compatStep,
      emotional_planets, intellectual_planets, physical_planets,
      spiritual_planets, compatNormalize, ratTrunc, List.foldl]
    norm_num
  exact ⟨h, by rw [h]; norm_num⟩

/-- C3 (amended): the weighted scorer's overall score lies in `[15, 95]`,
computed as `clamp(trunc(50 + (total weighted score / sum of
|base*weight|) * 50), 15, 95)` with the division guarded by
`max_possible_score > 0`; its category scores lie in `[0, 100]`, computed
as `clamp(trunc(50 + raw * scale), 0, 100)` with scale 2.5 for chemistry
and emotional and 3 for intellectual; every score field of both
implementations lies in `[0, 100]`, but the simpler
`calculate_compatibility_scores` clamps `overall` to `[0, 100]`, not
`[15, 95]`. -/
theorem scores_range_normalization :
    (∀ (aspects : List SynAspect) (chart1 chart2 : ChartElements),
      (15 ≤ (calculate_weighted_score aspects chart1 chart2).overall ∧
       (calculate_weighted_score aspects chart1 chart2).overall ≤ 95) ∧
      (0 ≤ (calculate_weighted_score aspects chart1 chart2).chemistry ∧
       (calculate_weighted_score aspects chart1 chart2).chemistry ≤ 100) ∧
      (0 ≤ (calculate_weighted_score aspects chart1 chart2).emotional ∧
       (calculate_weighted_score aspects chart1 chart2).emotional ≤ 100) ∧
      (0 ≤ (calculate_weighted_score aspects chart1 chart2).intellectual ∧
       (calculate_weighted_score aspects chart1 chart2).intellectual ≤ 100) ∧
      (0 ≤ (calculate_weighted_score aspects chart1 chart2).challenges_score ∧
       (calculate_weighted_score aspects chart1 chart2).challenges_score ≤ 100) ∧
      (calculate_weighted_score aspects chart1 chart2).overall
        = max 15 (min 95
            (if (weightedTotals aspects).max_possible_score > 0 then
              ratTrunc (50 +
                ((weightedTotals aspects).total_weighted_score +
                  (sunElementBonus chart1 chart2 + moonElementBonus chart1 chart2)) /
                  (weightedTotals aspects).max_possible_score * 50)
            else 50)) ∧
      (calculate_weighted_score aspects chart1 chart2).chemistry
        = max 0 (min 100
            (ratTrunc (50 + (weightedTotals aspects).chemistry_raw * (5/2)))) ∧
      (calculate_weighted_score aspects chart1 chart2).emotional
        = max 0 (min 100
            (ratTrunc (50 +
              ((weightedTotals aspects).emotional_raw +
                moonEmotionalBonus chart1 chart2) * (5/2)))) ∧
      (calculate_weighted_score aspects chart1 chart2).intellectual
        = max 0 (min 100
            (ratTrunc (50 + (weightedTotals aspects).intellectual_raw * 3)))) ∧
    (∀ (aspects : List CompatAspect) (chart1 chart2 : ChartElements),
      (0 ≤ (calculate_compatibility_scores aspects chart1 chart2).overall ∧
       (calculate_compatibility_scores aspects chart1 chart2).overall ≤ 100) ∧
      (0 ≤ (calculate_compatibility_scores aspects chart1 chart2).emotional ∧
       (calculate_compatibility_scores aspects chart1 chart2).emotional ≤ 100) ∧
      (0 ≤ (calculate_compatibility_scores aspects chart1 chart2).intellectual ∧
       (calculate_compatibility_scores aspects chart1 chart2).intellectual ≤ 100) ∧
      (0 ≤ (calculate_compatibility_scores aspects chart1 chart2).physical ∧
       (calculate_compatibility_scores aspects chart1 chart2).physical ≤ 100) ∧
      (0 ≤ (calculate_compatibility_scores aspects chart1 chart2).spiritual ∧
       (calculate_compatibility_scores aspects chart1 chart2).spiritual ≤ 100)) := by
  constructor
  · intro aspects chart1 chart2
    exact ⟨clampZ_bounds 15 95 _ (by norm_num),
           clampZ_bounds 0 100 _ (by norm_num),
           clampZ_bounds 0 100 _ (by norm_num),
           clampZ_bounds 0 100 _ (by norm_num),
           clampZ_bounds 0 100 _ (by norm_num),
           rfl, rfl, rfl, rfl⟩
  · intro aspects chart1 chart2
    exact ⟨clampZ_bounds 0 100 _ (by norm_num),
           clampZ_bounds 0 100 _ (by norm_num),
           clampZ_bounds 0 100 _ (by norm_num),
           clampZ_bounds 0 100 _ (by norm_num),
           clampZ_bounds 0 100 _ (by norm_num)⟩

/-- C9 counterexample: with an empty aspect list but matching Moon
elements, the weighted scorer's emotional category is 62, not the claimed
neutral 50 (the Moon element bonus feeds the emotional raw total even with
no aspects). -/
theorem empty_aspects_emotional_counterexample :
    (calculate_weighted_score [] ⟨"", "Fire"⟩ ⟨"", "Fire"⟩).emotional = 62 ∧
    ¬ (calculate_weighted_score [] ⟨"", "Fire"⟩ ⟨"", "Fire"⟩).emotional = 50 := by
  have h : (calculate_weighted_score [] ⟨"", "Fire"⟩ ⟨"", "Fire"⟩).emotional
      = 62 := by
    simp +decide only [calculate_weighted_score, weightedTotals, List.foldl,
      weightedNormalize, moonEmotionalBonus, elements_compatible, ratTrunc]
    norm_num
  exact ⟨h, by rw [h]; norm_num⟩

/-- C9 (amended): the scoring arithmetic is total.  With an empty aspect
list the weighted scorer's overall score is 50 (the division is guarded by
`max_possible_score > 0`), its chemistry, intellectual and challenges
categories stay at 50, and its emotional category equals the neutral
baseline plus only the Moon element bonus; all four category scores of
`calculate_compatibility_scores` stay at 50; and the transit mean-harmony
(guarded by a non-empty check) is 0 with a `"neutral"` energy. -/
theorem empty_aspects_neutral :
    (∀ chart1 chart2 : ChartElements,
      (calculate_weighted_score [] chart1 chart2).overall = 50 ∧
      (calculate_weighted_score [] chart1 chart2).chemistry = 50 ∧
      (calculate_weighted_score [] chart1 chart2).intellectual = 50 ∧
      (calculate_weighted_score [] chart1 chart2).challenges_score = 50 ∧
      (calculate_weighted_score [] chart1 chart2).emotional
        = weightedNormalize (moonEmotionalBonus chart1 chart2) 50 (5/2)) ∧
    (∀ (aspects : List SynAspect) (chart1 chart2 : ChartElements),
      (weightedTotals aspects).max_possible_score = 0 →
      (calculate_weighted_score aspects chart1 chart2).overall = 50) ∧
    (∀ chart1 chart2 : ChartElements,
      (calculate_compatibility_scores [] chart1 chart2).emotional = 50 ∧
      (calculate_compatibility_scores [] chart1 chart2).intellectual = 50 ∧
      (calculate_compatibility_scores [] chart1 chart2).physical = 50 ∧
      (calculate_compatibility_scores [] chart1 chart2).spiritual = 50) ∧
    transit_overall_energy [] = ("neutral", 0) := by
  refine ⟨fun chart1 chart2 => ?_, fun aspects chart1 chart2 h => ?_,
          fun chart1 chart2 => ?_, ?_⟩
  · refine ⟨?_, ?_, ?_, ?_, ?_⟩ <;>
      simp only [calculate_weighted_score, weightedTotals, List.foldl,
        weightedNormalize] <;>
      norm_num [ratTrunc]
  · simp only [calculate_weighted_score, h]
    norm_num
  · refine ⟨?_, ?_, ?_, ?_⟩ <;>
      simp only [calculate_compatibility_scores, List.foldl,
        compatNormalize] <;>
      norm_num [ratTrunc]
  · simp only [transit_overall_energy, List.map_nil, List.sum_nil,
      List.length_nil]
    norm_num

/-- Witness for C9 (amended): the division guard applied at the empty
aspect list and concrete charts. -/
theorem empty_aspects_neutral_witness :
    (weightedTotals []).max_possible_score = 0 ∧
    (calculate_weighted_score [] ⟨"Fire", "Air"⟩ ⟨"Air", "Earth"⟩).overall
      = 50 :=
  ⟨rfl, empty_aspects_neutral.2.1 [] ⟨"Fire", "Air"⟩ ⟨"Air", "Earth"⟩ rfl⟩

/-- C7: when the aspect library raises, natal aspect extraction degrades
to an empty list and synastry degrades to the deterministic manual
fallback; the manual fallback re-runs the angle-distance algorithm
pairwise over exactly the five planets sun, moon, venus, mars, mercury
(its result depends on the two charts only through those five keys). -/
theorem aspect_failure_fallbacks (msg : String)
    (chart1 chart2 chart1' chart2' : Chart)
    (h1 : ∀ p ∈ manualSynastryPlanets, chart1 p = chart1' p)
    (h2 : ∀ p ∈ manualSynastryPlanets, chart2 p = chart2' p) :
    natalChartAspects (Except.error msg) = [] ∧
    synastryAspects (Except.error msg) chart1 chart2
      = (calculate_manual_synastry chart1 chart2).map
          (fun a => ⟨a.person1_planet, a.person2_planet, a.aspect_type,
                     a.orb, a.harmony_score⟩) ∧
    calculate_manual_synastry chart1 chart2
      = calculate_manual_synastry chart1' chart2' := by
  refine ⟨rfl, rfl, ?_⟩
  unfold calculate_manual_synastry
  congr 1
  apply List.map_congr_left
  intro p1 hp1
  apply List.filterMap_congr
  intro p2 hp2
  unfold manualPairAspect
  rw [h1 p1 hp1, h2 p2 hp2]

/-- A one-planet chart used to witness the fallback behaviour. -/
def fallbackWitnessChart : Chart :=
  fun p => if p = "sun" then some ⟨"Sun", 10⟩ else none

/-- Witness for C7 at a concrete chart and library error. -/
theorem aspect_failure_fallbacks_witness :
    natalChartAspects (Except.error "lib failure") = [] ∧
    synastryAspects (Except.error "lib failure")
        fallbackWitnessChart fallbackWitnessChart
      = (calculate_manual_synastry fallbackWitnessChart
          fallbackWitnessChart).map
          (fun a => ⟨a.person1_planet, a.person2_planet, a.aspect_type,
                     a.orb, a.harmony_score⟩) ∧
    calculate_manual_synastry fallbackWitnessChart fallbackWitnessChart
      = calculate_manual_synastry fallbackWitnessChart fallbackWitnessChart :=
  aspect_failure_fallbacks "lib failure"
    fallbackWitnessChart fallbackWitnessChart
    fallbackWitnessChart fallbackWitnessChart
    (fun _ _ => rfl) (fun _ _ => rfl)

/-- C8: the transit list returned by `calculate_transits` is sorted in
ascending order of orb and contains at most 10 entries, for every set of
current positions and every natal chart. -/
theorem transits_sorted_top10 (current_positions : String → Option ℚ)
    (natal_chart : Chart) :
    (transitsResult current_positions natal_chart).length ≤ 10 ∧
    List.Pairwise (fun a b : TransitAspect => a.orb ≤ b.orb)
      (transitsResult current_positions natal_chart) := by
  constructor
  · exact List.length_take_le _ _
  · have hs := @List.sorted_mergeSort TransitAspect
      (fun a b : TransitAspect => decide (a.orb ≤ b.orb))
      (fun a b c hab hbc => by
        simp only [decide_eq_true_eq] at hab hbc ⊢
        exact le_trans hab hbc)
      (fun a b => by
        simp only [Bool.or_eq_true, decide_eq_true_eq]
        exact le_total a.orb b.orb)
      (buildTransitAspects current_positions natal_chart)
    have hp : List.Pairwise (fun a b : TransitAspect => a.orb ≤ b.orb)
        ((buildTransitAspects current_positions natal_chart).mergeSort
          (fun a b => decide (a.orb ≤ b.orb))) :=
      hs.imp (by intro a b h; simpa using h)
    exact List.Pairwise.sublist (List.take_sublist _ _) hp

theorem angularDistance_eq (a b : ℚ) :
    angularDistance a b = if |a - b| > 180 then 360 - |a - b| else |a - b| := by
  simp [angularDistance, pyAbs_eq_abs]

theorem angularDistance_not_le_5 (a b : ℚ) (h1 : 5 < |a - b|)
    (h2 : |a - b| < 355) : ¬ angularDistance a b ≤ 5 := by
  rw [angularDistance_eq]
  split_ifs with h
  · push_neg
    linarith
  · push_neg
    linarith

theorem angularDistance_le_5_of_abs (a b : ℚ) (h : |a - b| ≤ 5) :
    angularDistance a b ≤ 5 := by
  rw [angularDistance_eq, if_neg (by push_neg; linarith)]
  exact h

theorem angularDistance_le_5_wrap (a b : ℚ) (h : 355 ≤ |a - b|) :
    angularDistance a b ≤ 5 := by
  rw [angularDistance_eq, if_pos (by linarith)]
  linarith

/-- C10: for every phase angle in `[0, 360)`, `calculate_moon_phase`
returns from one of the four major-phase windows or one of the four
intermediate ranges; the terminal fallback return of the function is
unreachable. -/
theorem moon_phase_branch_coverage (phase_angle : ℚ)
    (hlo : 0 ≤ phase_angle) (hhi : phase_angle < 360) :
    (findMajorPhase MAJOR_PHASES phase_angle).isSome = true ∨
    (findIntermediatePhase intermediate_phases phase_angle).isSome = true := by
  have habs0 : |phase_angle - 0| = phase_angle := by
    rw [sub_zero, abs_of_nonneg hlo]
  rcases le_or_lt phase_angle 5 with hA | hA
  · left
    have hd : angularDistance phase_angle 0 ≤ 5 :=
      angularDistance_le_5_of_abs _ _ (by rw [habs0]; exact hA)
    simp [findMajorPhase, MAJOR_PHASES, hd]
  rcases lt_or_le phase_angle 85 with hB | hB
  · right
    have hc : 5 ≤ phase_angle ∧ phase_angle < 85 := ⟨le_of_lt hA, hB⟩
    simp [findIntermediatePhase, intermediate_phases, hc]
  rcases le_or_lt phase_angle 95 with hC | hC
  · left
    have hm0 : ¬ angularDistance phase_angle 0 ≤ 5 :=
      angularDistance_not_le_5 _ _
        (by rw [habs0]; linarith) (by rw [habs0]; linarith)
    have hd : angularDistance phase_angle 90 ≤ 5 :=
      angularDistance_le_5_of_abs _ _
        (abs_le.mpr ⟨by linarith, by linarith⟩)
    simp [findMajorPhase, MAJOR_PHASES, hm0, hd]
  rcases lt_or_le phase_angle 175 with hD | hD
  · right
    have hm1 : ¬ (5 ≤ phase_angle ∧ phase_angle < 85) := by
      rintro ⟨-, h⟩
      linarith
    have hc : 95 ≤ phase_angle ∧ phase_angle < 175 := ⟨le_of_lt hC, hD⟩
    simp [findIntermediatePhase, intermediate_phases, hm1, hc]
  rcases le_or_lt phase_angle 185 with hE | hE
  · left
    have hm0 : ¬ angularDistance phase_angle 0 ≤ 5 :=
      angularDistance_not_le_5 _ _
        (by rw [habs0]; linarith) (by rw [habs0]; linarith)
    have hm90 : ¬ angularDistance phase_angle 90 ≤ 5 :=
      angularDistance_not_le_5 _ _
        (lt_abs.mpr (Or.inl (by linarith)))
        (abs_sub_lt_iff.mpr ⟨by linarith, by linarith⟩)
    have hd : angularDistance phase_angle 180 ≤ 5 :=
      angularDistance_le_5_of_abs _ _
        (abs_le.mpr ⟨by linarith, by linarith⟩)
    simp [findMajorPhase, MAJOR_PHASES, hm0, hm90, hd]
  rcases lt_or_le phase_angle 265 with hF | hF
  · right
    have hm1 : ¬ (5 ≤ phase_angle ∧ phase_angle < 85) := by
      rintro ⟨-, h⟩
      linarith
    have hm2 : ¬ (95 ≤ phase_angle ∧ phase_angle < 175) := by
      rintro ⟨-, h⟩
      linarith
    have hc : 185 ≤ phase_angle ∧ phase_angle < 265 := ⟨le_of_lt hE, hF⟩
    simp [findIntermediatePhase, intermediate_phases, hm1, hm2, hc]
  rcases le_or_lt phase_angle 275 with hG | hG
  · left
    have hm0 : ¬ angularDistance phase_angle 0 ≤ 5 :=
      angularDistance_not_le_5 _ _
        (by rw [habs0]; linarith) (by rw [habs0]; linarith)
    have hm90 : ¬ angularDistance phase_angle 90 ≤ 5 :=
      angularDistance_not_le_5 _ _
        (lt_abs.mpr (Or.inl (by linarith)))
        (abs_sub_lt_iff.mpr ⟨by linarith, by linarith⟩)
    have hm180 : ¬ angularDistance phase_angle 180 ≤ 5 :=
      angularDistance_not_le_5 _ _
        (lt_abs.mpr (Or.inl (by linarith)))
        (abs_sub_lt_iff.mpr ⟨by linarith, by linarith⟩)
    have hd : angularDistance phase_angle 270 ≤ 5 :=
      angularDistance_le_5_of_abs _ _
        (abs_le.mpr ⟨by linarith, by linarith⟩)
    simp [findMajorPhase, MAJOR_PHASES, hm0, hm90, hm180, hd]
  rcases lt_or_le phase_angle 355 with hH | hH
  · right
    have hm1 : ¬ (5 ≤ phase_angle ∧ phase_angle < 85) := by
      rintro ⟨-, h⟩
      linarith
    have hm2 : ¬ (95 ≤ phase_angle ∧ phase_angle < 175) := by
      rintro ⟨-, h⟩
      linarith
    have hm3 : ¬ (185 ≤ phase_angle ∧ phase_angle < 265) := by
      rintro ⟨-, h⟩
      linarith
    have hc : 275 ≤ phase_angle ∧ phase_angle < 355 := ⟨le_of_lt hG, hH⟩
    simp [findIntermediatePhase, intermediate_phases, hm1, hm2, hm3, hc]
  · left
    have hd : angularDistance phase_angle 0 ≤ 5 :=
      angularDistance_le_5_wrap _ _ (by rw [habs0]; exact hH)
    simp [findMajorPhase, MAJOR_PHASES, hd]

/-- Witness for C10 at the concrete phase angle 42 (an intermediate
Waxing Crescent angle). -/
theorem moon_phase_branch_coverage_witness :
    (findMajorPhase MAJOR_PHASES 42).isSome = true ∨
    (findIntermediatePhase intermediate_phases 42).isSome = true :=
  moon_phase_branch_coverage 42 (by norm_num) (by norm_num)
